import Mathlib

/-!
Verification of the active-section tracker, contact-form submission handler,
tabbed project switcher and deployment base path of a single-page portfolio
site (source: src/site/app/page.tsx, src/site/next.config.mjs,
src/site/next.config.ts).

Scroll coordinates are modelled as rationals (the browser reports fractional
pixel values); document scroll height is an integer.  The fetch call is
modelled by an explicit result datum: a resolved response carries its HTTP
status and the optional parsed errors array of the JSON body (a body that is
absent or fails to parse yields no errors array, exactly as the
res.json().catch(() => ({})) expression in the source collapses both cases),
and a rejected promise is the transport-failure case.
-/

/-- Declared order of the seven section identifiers
(page.tsx line 11, SECTION_IDS). -/
def SECTION_IDS : List String :=
  ["about", "projects", "certificates", "skills", "experience", "education", "contact"]

/-- Inputs read by the scroll handler: window.scrollY, the header height,
window.innerHeight, document.documentElement.scrollHeight, and the recorded
per-section offsets (offsetsRef.current, a partial map). -/
structure ScrollEnv where
  scrollY : ℚ
  headerH : ℚ
  innerHeight : ℚ
  scrollHeight : ℤ
  offsets : String → Option ℚ

/-- Bottom-of-document test of onScroll (page.tsx line 219):
Math.ceil(window.scrollY + window.innerHeight) >= doc.scrollHeight - 2. -/
def atBottom (e : ScrollEnv) : Bool :=
  decide (e.scrollHeight - 2 ≤ ⌈e.scrollY + e.innerHeight⌉)

/-- Probe position of onScroll (page.tsx line 216):
const y = window.scrollY + headerH + 10. -/
def scrollProbe (e : ScrollEnv) : ℚ :=
  e.scrollY + e.headerH + 10

/-- The for-loop of onScroll (page.tsx lines 224-229): walk the ids in
declared order, updating current while the recorded offset exists and is at
most y, and break at the first id that fails the test. -/
def scanActive (offsets : String → Option ℚ) (y : ℚ) : List String → String → String
  | [], cur => cur
  | id :: rest, cur =>
    match offsets id with
    | some off => if y ≥ off then scanActive offsets y rest id else cur
    | none => cur

/-- The scroll handler onScroll (page.tsx lines 212-231): at the document
bottom it forces "contact"; otherwise it scans the sections starting from the
default "about". -/
def onScroll (e : ScrollEnv) : String :=
  if atBottom e then "contact"
  else scanActive e.offsets (scrollProbe e) SECTION_IDS "about"

/-- Test used by the specification's wording: the section has a recorded
offset and it is at most y. -/
def offLE (offsets : String → Option ℚ) (y : ℚ) (id : String) : Bool :=
  match offsets id with
  | some off => decide (off ≤ y)
  | none => false

/-- The specification's wording of the scan ("the last Section, in declared
order, whose recorded offset is less than or equal to that position"),
defaulting to "about" when no section qualifies. -/
def lastLE (offsets : String → Option ℚ) (y : ℚ) : String :=
  (SECTION_IDS.filter (offLE offsets y)).getLastD "about"

/-- Helper: the scan returns either its accumulator or a member of the list. -/
theorem scanActive_mem (offsets : String → Option ℚ) (y : ℚ) :
    ∀ (l : List String) (cur : String),
      scanActive offsets y l cur = cur ∨ scanActive offsets y l cur ∈ l := by
  intro l
  induction l with
  | nil => intro cur; left; rfl
  | cons id rest ih =>
    intro cur
    cases h : offsets id with
    | none => left; simp [scanActive, h]
    | some off =>
      by_cases hy : y ≥ off
      · have hstep : scanActive offsets y (id :: rest) cur = scanActive offsets y rest id := by
          simp [scanActive, h, hy]
        rw [hstep]
        rcases ih id with h1 | h1
        · right; rw [h1]; exact List.mem_cons_self id rest
        · right; exact List.mem_cons_of_mem id h1
      · left; simp [scanActive, h, hy]

/-- C4: in every reachable state ActiveSection is one of the seven declared
section identifiers: the initial value "about" is declared, and the scroll
handler (which performs every other assignment, including the bottom-of-page
forcing of "contact") always returns a declared identifier, whatever the
recorded offsets are. -/
theorem active_always_declared (e : ScrollEnv) :
    "about" ∈ SECTION_IDS ∧ onScroll e ∈ SECTION_IDS := by
  constructor
  · simp [SECTION_IDS]
  · unfold onScroll
    split
    · simp [SECTION_IDS]
    · rcases scanActive_mem e.offsets (scrollProbe e) SECTION_IDS "about" with h | h
      · rw [h]; simp [SECTION_IDS]
      · exact h

/-- C2: whenever the bottom-of-document test holds (ceil of scrollY plus the
viewport height reaches the document scroll height minus 2), onScroll yields
"contact" whatever the recorded offsets are, so no offset comparison can
influence the result. -/
theorem bottom_forces_contact (e : ScrollEnv) (f : String → Option ℚ)
    (h : atBottom e = true) :
    onScroll { e with offsets := f } = "contact" := by
  have hb : atBottom { e with offsets := f } = true := by
    simpa [atBottom] using h
  simp [onScroll, hb]

/-- Concrete environment at the bottom of the document. -/
def exBottomEnv : ScrollEnv :=
  { scrollY := 9000, headerH := 60, innerHeight := 800, scrollHeight := 9800,
    offsets := fun _ => none }

/-- Witness for bottom_forces_contact at a concrete environment. -/
theorem bottom_forces_contact_witness :
    atBottom exBottomEnv = true ∧
      onScroll { exBottomEnv with offsets := fun _ => some 0 } = "contact" :=
  ⟨by simp only [atBottom, exBottomEnv]; norm_num,
   bottom_forces_contact exBottomEnv (fun _ => some 0)
     (by simp only [atBottom, exBottomEnv]; norm_num)⟩

set_option maxHeartbeats 1000000 in
/-- C1: away from the document bottom, the scroll handler probes the position
scrollY plus header height plus the 10-pixel buffer and selects the last
declared section whose recorded offset is at most that probe (formalised by
lastLE, which follows the specification wording); when the offsets are all
recorded and listed in nondecreasing declared order, a probe lying in the
half-open interval between one section's offset and the next section's offset
selects exactly that section. -/
theorem scroll_maps_to_last_section (e : ScrollEnv)
    (o0 o1 o2 o3 o4 o5 o6 : ℚ)
    (hnb : atBottom e = false)
    (h0 : e.offsets "about" = some o0)
    (h1 : e.offsets "projects" = some o1)
    (h2 : e.offsets "certificates" = some o2)
    (h3 : e.offsets "skills" = some o3)
    (h4 : e.offsets "experience" = some o4)
    (h5 : e.offsets "education" = some o5)
    (h6 : e.offsets "contact" = some o6)
    (s01 : o0 ≤ o1) (s12 : o1 ≤ o2) (s23 : o2 ≤ o3)
    (s34 : o3 ≤ o4) (s45 : o4 ≤ o5) (s56 : o5 ≤ o6) :
    scrollProbe e = e.scrollY + e.headerH + 10 ∧
    onScroll e = lastLE e.offsets (scrollProbe e) ∧
    (o0 ≤ scrollProbe e ∧ scrollProbe e < o1 → onScroll e = "about") ∧
    (o1 ≤ scrollProbe e ∧ scrollProbe e < o2 → onScroll e = "projects") ∧
    (o2 ≤ scrollProbe e ∧ scrollProbe e < o3 → onScroll e = "certificates") ∧
    (o3 ≤ scrollProbe e ∧ scrollProbe e < o4 → onScroll e = "skills") ∧
    (o4 ≤ scrollProbe e ∧ scrollProbe e < o5 → onScroll e = "experience") ∧
    (o5 ≤ scrollProbe e ∧ scrollProbe e < o6 → onScroll e = "education") ∧
    (o6 ≤ scrollProbe e → onScroll e = "contact") := by
  have hscan : onScroll e = scanActive e.offsets (scrollProbe e) SECTION_IDS "about" := by
    simp [onScroll, hnb]
  rw [hscan]
  simp only [SECTION_IDS, scanActive, lastLE, offLE, List.filter_cons, List.filter_nil,
    h0, h1, h2, h3, h4, h5, h6, ge_iff_le, decide_eq_true_eq]
  refine ⟨rfl, ?_, ?_, ?_, ?_, ?_, ?_, ?_, ?_⟩
  · split_ifs <;> first | rfl | linarith
  all_goals intro hiv
  all_goals split_ifs <;> first | rfl | linarith

/-- Concrete recorded offsets: the seven sections at 0, 100, ..., 600. -/
def exOffsets : String → Option ℚ := fun id =>
  if id = "about" then some 0
  else if id = "projects" then some 100
  else if id = "certificates" then some 200
  else if id = "skills" then some 300
  else if id = "experience" then some 400
  else if id = "education" then some 500
  else if id = "contact" then some 600
  else none

/-- Concrete scroll environment away from the bottom whose probe position
120 + 50 + 10 = 180 lies between the offsets of "projects" and
"certificates". -/
def exScrollEnv : ScrollEnv :=
  { scrollY := 120, headerH := 50, innerHeight := 800, scrollHeight := 5000,
    offsets := exOffsets }

/-- Witness for scroll_maps_to_last_section at a concrete environment. -/
theorem scroll_maps_to_last_section_witness :
    atBottom exScrollEnv = false ∧ onScroll exScrollEnv = "projects" := by
  have hnb : atBottom exScrollEnv = false := by
    simp only [atBottom, exScrollEnv]; norm_num
  refine ⟨hnb, ?_⟩
  have h := scroll_maps_to_last_section exScrollEnv 0 100 200 300 400 500 600 hnb
    rfl rfl rfl rfl rfl rfl rfl
    (by norm_num) (by norm_num) (by norm_num) (by norm_num) (by norm_num) (by norm_num)
  exact h.2.2.2.1 (by constructor <;> (simp only [scrollProbe, exScrollEnv]; norm_num))

/-- Kind of a toast notice (page.tsx line 16, type Toast). -/
inductive ToastKind
  | success
  | error
  deriving DecidableEq, Repr

/-- A toast notice: kind and text (page.tsx line 16). -/
structure ToastMsg where
  kind : ToastKind
  text : String
  deriving DecidableEq, Repr

/-- The visible contact-form fields name, email, message
(page.tsx lines 594-618). -/
structure FormFields where
  name : String
  email : String
  message : String
  deriving DecidableEq, Repr

/-- State owned by the contact form: the in-flight flag sending, the current
toast and the field contents (page.tsx lines 254-255 and the form element). -/
structure ContactState where
  sending : Bool
  toast : Option ToastMsg
  fields : FormFields
  deriving DecidableEq, Repr

/-- One entry of the errors array of a Formspree failure body
(page.tsx line 17, type FormspreeError). -/
structure FormspreeError where
  message : Option String
  field : Option String
  code : Option String
  deriving DecidableEq, Repr

/-- Outcome of the fetch call: a resolved response with its HTTP status and
the errors array of its parsed JSON body (none when the errors field is
absent or the body fails to parse, which res.json().catch(() => ({}))
collapses into an empty object), or a rejected promise. -/
inductive FetchResult
  | resolved (status : ℕ) (errs : Option (List FormspreeError))
  | rejected
  deriving DecidableEq, Repr

/-- Response.ok of the fetch API: the status is in the 2xx range. -/
def resOk (status : ℕ) : Bool :=
  200 ≤ status && status ≤ 299

/-- Success toast text (page.tsx line 274). -/
def SUCCESS_TEXT : String := "Message sent! I’ll get back to you soon."

/-- Fallback error toast text (page.tsx line 279). -/
def FALLBACK_TEXT : String := "Could not send message. Please try again."

/-- Transport-failure toast text (page.tsx line 283). -/
def NETWORK_ERROR_TEXT : String := "Network error. Please try again."

/-- Delay in milliseconds after which the toast is cleared
(page.tsx line 286, setTimeout(..., 4000)). -/
def TOAST_DELAY : ℕ := 4000

/-- The truthy messages of an errors array:
j.errors.map((x) => x.message).filter(Boolean) keeps each message that is
present and not the empty string (page.tsx line 278). -/
def truthyMessages (es : List FormspreeError) : List String :=
  (es.map (fun x => x.message)).filterMap (fun m =>
    match m with
    | some s => if s = "" then none else some s
    | none => none)

/-- Error toast text of a non-ok response (page.tsx lines 276-279):
join the truthy messages with a comma-space separator when the errors field
is present, and fall back to the generic text otherwise. -/
def errorText (errs : Option (List FormspreeError)) : String :=
  match errs with
  | some es => String.intercalate ", " (truthyMessages es)
  | none => FALLBACK_TEXT

/-- Start of handleContactSubmit (page.tsx lines 257-260): when sending is
already set the handler returns at once; otherwise it sets sending and the
request is issued.  The Bool of the pair records whether a request goes out. -/
def handleSubmitStart (s : ContactState) : ContactState × Bool :=
  if s.sending then (s, false)
  else ({ s with sending := true }, true)

/-- Settling of handleContactSubmit (page.tsx lines 272-287): a 2xx response
resets the form and shows the success toast; any other response shows the
error toast built from its body; a rejected fetch shows the network-error
toast.  The finally block clears sending and schedules the toast clearing
after TOAST_DELAY milliseconds, returned as the second component. -/
def handleSettle (s : ContactState) (r : FetchResult) : ContactState × ℕ :=
  match r with
  | .resolved status errs =>
    if resOk status then
      ({ sending := false,
         toast := some { kind := .success, text := SUCCESS_TEXT },
         fields := { name := "", email := "", message := "" } }, TOAST_DELAY)
    else
      ({ s with sending := false,
                toast := some { kind := .error, text := errorText errs } }, TOAST_DELAY)
  | .rejected =>
    ({ s with sending := false,
              toast := some { kind := .error, text := NETWORK_ERROR_TEXT } }, TOAST_DELAY)

/-- The scheduled setToast(null) action (page.tsx line 286). -/
def clearToast (s : ContactState) : ContactState :=
  { s with toast := none }

/-- Concrete contact-form state with a submission in flight. -/
def exSendingState : ContactState :=
  { sending := true, toast := none,
    fields := { name := "a", email := "b", message := "c" } }

/-- C3: while sending is set, a further submit leaves the state untouched and
issues no request; when sending is clear, the handler sets the flag before
the request goes out; and settling the request always clears the flag. -/
theorem sending_guard (s : ContactState) (h : s.sending = true) :
    handleSubmitStart s = (s, false) ∧
    (∀ t : ContactState, t.sending = false →
      handleSubmitStart t = ({ t with sending := true }, true)) ∧
    (∀ (u : ContactState) (r : FetchResult), (handleSettle u r).1.sending = false) := by
  refine ⟨by simp [handleSubmitStart, h], ?_, ?_⟩
  · intro t ht
    simp [handleSubmitStart, ht]
  · intro u r
    cases r with
    | resolved status errs =>
      cases hok : resOk status <;> simp [handleSettle, hok]
    | rejected => simp [handleSettle]

/-- Witness for sending_guard: a submit while sending is in flight is a
no-op with no request issued. -/
theorem sending_guard_witness :
    handleSubmitStart exSendingState = (exSendingState, false) :=
  (sending_guard exSendingState rfl).1

/-- C5: a 2xx response clears all three form fields, sets the success toast,
and schedules the toast clearing after 4000 milliseconds, after which the
toast is gone. -/
theorem success_clears_form_and_toasts (s : ContactState) (status : ℕ)
    (errs : Option (List FormspreeError)) (h : resOk status = true) :
    (handleSettle s (.resolved status errs)).1.fields =
      { name := "", email := "", message := "" } ∧
    (handleSettle s (.resolved status errs)).1.toast =
      some { kind := .success, text := SUCCESS_TEXT } ∧
    (handleSettle s (.resolved status errs)).2 = 4000 ∧
    (clearToast (handleSettle s (.resolved status errs)).1).toast = none := by
  simp [handleSettle, h, clearToast, TOAST_DELAY]

/-- Witness for success_clears_form_and_toasts at HTTP status 204. -/
theorem success_clears_form_and_toasts_witness :
    resOk 204 = true ∧
      (handleSettle exSendingState (.resolved 204 none)).1.toast =
        some { kind := .success, text := SUCCESS_TEXT } :=
  ⟨by decide,
   (success_clears_form_and_toasts exSendingState 204 none (by decide)).2.1⟩

/-- C6: a non-2xx response carrying an errors array produces an error toast
whose text joins the truthy messages with a comma-space separator; for the
single entry with message "Invalid email" the text is exactly
"Invalid email". -/
theorem structured_errors_joined (s : ContactState) (status : ℕ)
    (es : List FormspreeError) (h : resOk status = false) :
    (handleSettle s (.resolved status (some es))).1.toast =
      some { kind := .error, text := String.intercalate ", " (truthyMessages es) } ∧
    (handleSettle s (.resolved status
        (some [{ message := some "Invalid email", field := none, code := none }]))).1.toast =
      some { kind := .error, text := "Invalid email" } := by
  constructor
  · simp [handleSettle, h, errorText]
  · simp only [handleSettle, h, Bool.false_eq_true, if_false]
    rfl

/-- Witness for structured_errors_joined at HTTP status 422. -/
theorem structured_errors_joined_witness :
    resOk 422 = false ∧
      (handleSettle exSendingState
        (.resolved 422
          (some [{ message := some "Invalid email", field := none, code := none }]))).1.toast =
        some { kind := .error, text := "Invalid email" } :=
  ⟨by decide,
   (structured_errors_joined exSendingState 422
      [{ message := some "Invalid email", field := none, code := none }] (by decide)).2⟩

/-- C7: every settled submission lands in exactly one of the three outcomes
(2xx success, non-2xx structured failure, rejected transport), always leaves
exactly one toast set with sending cleared, always schedules the same
TOAST_DELAY dismissal, and the scheduled action removes the toast. -/
theorem submission_outcomes (s : ContactState) (r : FetchResult) :
    (∃ t : ToastMsg, (handleSettle s r).1.toast = some t) ∧
    (handleSettle s r).2 = TOAST_DELAY ∧
    (clearToast (handleSettle s r).1).toast = none ∧
    (handleSettle s r).1.sending = false ∧
    ((∃ status errs, r = .resolved status errs ∧ resOk status = true ∧
        (handleSettle s r).1.toast = some { kind := .success, text := SUCCESS_TEXT }) ∨
     (∃ status errs, r = .resolved status errs ∧ resOk status = false ∧
        (handleSettle s r).1.toast = some { kind := .error, text := errorText errs }) ∨
     (r = .rejected ∧
        (handleSettle s r).1.toast =
          some { kind := .error, text := NETWORK_ERROR_TEXT })) := by
  cases r with
  | resolved status errs =>
    cases hok : resOk status with
    | true =>
      refine ⟨⟨{ kind := .success, text := SUCCESS_TEXT }, ?_⟩, ?_, ?_, ?_,
          Or.inl ⟨status, errs, rfl, hok, ?_⟩⟩ <;>
        simp [handleSettle, hok, clearToast]
    | false =>
      refine ⟨⟨{ kind := .error, text := errorText errs }, ?_⟩, ?_, ?_, ?_,
          Or.inr (Or.inl ⟨status, errs, rfl, hok, ?_⟩)⟩ <;>
        simp [handleSettle, hok, clearToast]
  | rejected =>
    refine ⟨⟨{ kind := .error, text := NETWORK_ERROR_TEXT }, ?_⟩, ?_, ?_, ?_,
        Or.inr (Or.inr ⟨rfl, ?_⟩)⟩ <;>
      simp [handleSettle, clearToast]

/-- C10: for a non-2xx response whose body carries an errors array with no
truthy message, the error toast text is the empty string and not the generic
fallback; the fallback appears exactly when the errors array is absent
(including an unparseable body). -/
theorem empty_errors_empty_notice (s : ContactState) (status : ℕ)
    (h : resOk status = false) :
    (handleSettle s (.resolved status (some []))).1.toast =
      some { kind := .error, text := "" } ∧
    (∀ es : List FormspreeError, truthyMessages es = [] →
      (handleSettle s (.resolved status (some es))).1.toast =
        some { kind := .error, text := "" }) ∧
    (handleSettle s (.resolved status none)).1.toast =
      some { kind := .error, text := FALLBACK_TEXT } ∧
    ("" : String) ≠ FALLBACK_TEXT := by
  refine ⟨?_, ?_, ?_, by decide⟩
  · simp only [handleSettle, h, Bool.false_eq_true, if_false]
    rfl
  · intro es he
    simp only [handleSettle, h, Bool.false_eq_true, if_false, errorText, he]
    rfl
  · simp [handleSettle, h, errorText]

/-- Witness for empty_errors_empty_notice: a 400 response whose errors array
has one entry without any message yields the empty-text error toast. -/
theorem empty_errors_empty_notice_witness :
    resOk 400 = false ∧
      truthyMessages [{ message := none, field := none, code := none }] = [] ∧
      (handleSettle exSendingState
        (.resolved 400
          (some [{ message := none, field := none, code := none }]))).1.toast =
        some { kind := .error, text := "" } :=
  ⟨by decide, by decide,
   (empty_errors_empty_notice exSendingState 400 (by decide)).2.1
     [{ message := none, field := none, code := none }] (by decide)⟩

/-- The two tab keys of the projects section (page.tsx line 154). -/
inductive TabKey
  | research
  | applied
  deriving DecidableEq, Repr

/-- One project card: name, description, link (page.tsx lines 61-98). -/
structure Project where
  name : String
  desc : String
  link : String
  deriving DecidableEq, Repr

/-- The PROJECTS record (page.tsx lines 61-98): the fixed list of project
cards associated with each tab key. -/
def PROJECTS : TabKey → List Project
  | .research =>
    [{ name := "AI-FAPS: Multi-Modal · Multi-View · Multi-Task Pipeline",
       desc := "Deep learning pipeline for quality monitoring in industrial manufacturing.",
       link := "https://github.com/uddipan77/AI-FAPS-Multi-Modal-View-Task-Pipeline" },
     { name := "Self/Semi-Supervised Image Classification (Industrial Inspection)",
       desc := "Comparative assessment of self-, semi-, and combined learning approaches.",
       link := "https://github.com/uddipan77/ai-faps-self-semi-combined-dl-pipeline-industrial-inspection" }]
  | .applied =>
    [{ name := "OCR → Machine Translation for Inventory Documents",
       desc := "Reorders OCR text and translates to Chinese; evaluates with BLEU.",
       link := "https://github.com/uddipan77/OCR-to-Machine-Translation" },
     { name := "Generative AI Cold-Email Generator",
       desc := "Llama 3.1, LangChain, ChromaDB, Streamlit, Groq Cloud.",
       link := "https://github.com/uddipan77/generate_email_with_llm" },
     { name := "Local LLM-based RAG System for Your Personal Documents",
       desc := "Private, fully local RAG for Germany’s paperwork pain: convert docs to PDFs, OCR text, store embeddings in OpenSearch, and query with Ollama—secure and offline.",
       link := "https://github.com/uddipan77/local_rag_talk_with_your_docs/tree/main" },
     { name := "Fullstack Customer Churn Prediction App",
       desc := "FastAPI + React; batch & single predictions; multiple models (KNN, SVM, RF, LR, DT, AdaBoost).",
       link := "https://github.com/uddipan77/fullstack_customer_churn" }]

/-- State of the ProjectsTabbed component: the selected tab key
(page.tsx line 154, useState). -/
structure TabState where
  tab : TabKey
  deriving DecidableEq, Repr

/-- Initial tab state: useState starts at "research" (page.tsx line 154). -/
def initialTab : TabState :=
  { tab := .research }

/-- The setTab click handler (page.tsx line 166): replace the selected key. -/
def setTab (k : TabKey) (_s : TabState) : TabState :=
  { tab := k }

/-- The rendered list PROJECTS[tab] (page.tsx line 177). -/
def displayed (s : TabState) : List Project :=
  PROJECTS s.tab

/-- C8: selecting either tab key makes the displayed list exactly the
project list of that key; the selection state always holds one of the two
keys, the initial key is research, and selection is the pure synchronous
function setTab. -/
theorem tab_selection :
    (∀ (k : TabKey) (s : TabState),
      displayed (setTab k s) = PROJECTS k ∧ (setTab k s).tab = k) ∧
    (∀ s : TabState, s.tab = .research ∨ s.tab = .applied) ∧
    initialTab.tab = .research ∧
    displayed initialTab = PROJECTS .research := by
  refine ⟨fun k s => ⟨rfl, rfl⟩, fun s => ?_, rfl, rfl⟩
  cases h : s.tab
  · exact Or.inl rfl
  · exact Or.inr rfl

/-- The in-page asset base (page.tsx line 198): "/portfolio_Uddipan" when
NODE_ENV is "production", the empty string otherwise. -/
def pageBASE (isProd : Bool) : String :=
  if isProd then "/portfolio_Uddipan" else ""

/-- Repository name constant of next.config.mjs. -/
def repoName : String := "portfolio_Uddipan"

/-- basePath of next.config.mjs: conditional on the production flag. -/
def nextConfigMjsBasePath (isProd : Bool) : String :=
  if isProd then "/" ++ repoName else ""

/-- basePath of next.config.ts (lines 10-11): the constant
"/portfolio_Uddipan", with no dependence on the production flag. -/
def nextConfigTsBasePath : String := "/portfolio_Uddipan"

/-- Modelled from the spec wording of the claim: the base path the claim
asserts for every configuration site, namely "/portfolio_Uddipan" in
production and empty otherwise. -/
def claimedBasePath (isProd : Bool) : String :=
  if isProd then "/portfolio_Uddipan" else ""

/-- C9 counterexample: next.config.ts pins the base path to
"/portfolio_Uddipan" even outside production, so the claim that the base
path is empty in non-production for the build configuration fails there. -/
theorem base_path_ts_counterexample :
    nextConfigTsBasePath ≠ claimedBasePath false := by
  decide

/-- C9 amended: the in-page asset base and the next.config.mjs basePath are
controlled by the production flag exactly as claimed ("/portfolio_Uddipan"
in production, empty otherwise), while next.config.ts hardcodes
"/portfolio_Uddipan" unconditionally. -/
theorem base_path_amended :
    (∀ isProd : Bool, pageBASE isProd = claimedBasePath isProd) ∧
    (∀ isProd : Bool, nextConfigMjsBasePath isProd = claimedBasePath isProd) ∧
    nextConfigTsBasePath = "/portfolio_Uddipan" := by
  refine ⟨fun isProd => ?_, fun isProd => ?_, rfl⟩
  · cases isProd <;> rfl
  · cases isProd <;> rfl
